import Mathlib

/-
Verification of the gofiber fluent-logging middleware
(src/fluentlogger/fluentlogger.go, package fiberfluentdlogger).

The Go code wraps a downstream fiber handler and, as side effects, sends
flat key-value records to a fluentd collector and prints transmission
failures locally.  The shallow embedding below makes those effects
explicit: a run of a wrapped handler produces the mutated context, the
returned error, the list of (tag, record) pairs posted to the collector,
and the list of locally printed diagnostics.  Wall-clock time is threaded
explicitly: the clock value at handler entry and the (nonnegative,
Go guarantees a monotonic reading for time.Since) durations of the
downstream call, of record construction and of the Post call.

External collaborators (the fluent client, tracerr, debug.Stack, the
downstream handler) are parameters of the embedded functions.
-/

set_option linter.dupNamespace false

namespace fiberfluentdlogger

/-- A primitive value stored in a log record (`map[string]interface\x7b\x7d`
holds strings and integers here). -/
inductive Value where
  | str (s : String)
  | int (n : Int)
deriving DecidableEq, Repr

/-- A log record: a flat mapping from attribute name to primitive value,
in the order the Go code inserts the keys. -/
abbrev Record := List (String × Value)

/-- The per-request fiber context, restricted to the fields the middleware
reads: c.Method(), c.Path(), c.Response().StatusCode(), c.IP(),
c.Get("User-Agent"), c.Response().Body(). -/
structure Ctx where
  method : String
  path : String
  statusCode : Nat
  ip : String
  userAgent : String
  respBody : List Nat
deriving DecidableEq, Repr

/-- fiber.StatusInternalServerError. -/
def StatusInternalServerError : Nat := 500

/-- Go time.Duration.Milliseconds(): nanoseconds divided by 1e6, truncated
toward zero. -/
def Duration.Milliseconds (d : Int) : Int := Int.tdiv d 1000000

/-- LoggerConfig from the source. -/
structure LoggerConfig where
  Enabled : Bool
  Host : String
  Port : Int
  Tag : String
deriving DecidableEq, Repr

/-- The external fluent client handle produced by fluent.New. -/
structure Fluent where
  host : String
  port : Int
deriving DecidableEq, Repr

/-- Logger struct from the source: the fluent client and the configured tag. -/
structure Logger where
  client : Fluent
  tag : String
deriving DecidableEq, Repr

/-- Observable effect of the constructor: an attempt to establish the
collector connection (a call to fluent.New with a host and port). -/
inductive NewEffect where
  | connectAttempt (host : String) (port : Int)
deriving DecidableEq, Repr

/-- New from the source: fails when the middleware is disabled, otherwise
calls fluent.New (modelled by the fluentNew parameter; the effect list
records whether that call was attempted) and either propagates its error
or returns the logger handle. -/
def New (fluentNew : String → Int → Except String Fluent)
    (config : LoggerConfig) : Except String Logger × List NewEffect :=
  if !config.Enabled then
    (Except.error "middleware disabled", [])
  else
    match fluentNew config.Host config.Port with
    | Except.error e => (Except.error e, [NewEffect.connectAttempt config.Host config.Port])
    | Except.ok fluentLogger =>
        (Except.ok { client := fluentLogger, tag := config.Tag },
         [NewEffect.connectAttempt config.Host config.Port])

/-- The logData map built by Logger.Logger (lines 80-91): the seven fixed
attributes of the completed response, plus an error entry when the
downstream handler returned a non-nil error.  sprintSource models
tracerr.SprintSource. -/
def loggerLogData (sprintSource : String → String) (c1 : Ctx) (latency : Int)
    (err : Option String) : Record :=
  let logData : Record :=
    [("method", Value.str c1.method),
     ("path", Value.str c1.path),
     ("status", Value.int (c1.statusCode : Int)),
     ("latency_ms", Value.int (Duration.Milliseconds latency)),
     ("client_ip", Value.str c1.ip),
     ("user_agent", Value.str c1.userAgent),
     ("response_size", Value.int (c1.respBody.length : Int))]
  match err with
  | some e => logData ++ [("error", Value.str (sprintSource e))]
  | none => logData

/-- Result of one run of a wrapped handler: the context after the run, the
error returned to the caller, the (tag, record) pairs posted to fluentd,
the locally printed diagnostics, and the clock value when the handler
finishes. -/
structure HandlerResult where
  ctx : Ctx
  err : Option String
  posts : List (String × Record)
  printed : List String
  doneAt : Int
deriving DecidableEq, Repr

/-- Logger.Logger from the source (lines 73-100), as a function of the
external collaborators: postResult gives the outcome of client.Post
(some e is a transmission failure), sprintSource models
tracerr.SprintSource / PrintSource, next is the downstream handler
(c.Next), t0 is the wall clock at entry and dNext, dBuild, dPost the
durations of the downstream call, of record construction and of the Post
call.  Mirrors the source line by line: capture start, run next, compute
latency, build logData, Post, print a Post failure, return the original
error. -/
def Logger.Logger (l : Logger) (postResult : String → Record → Option String)
    (sprintSource : String → String) (next : Ctx → Ctx × Option String)
    (t0 : Int) (dNext dBuild dPost : Nat) (c : Ctx) : HandlerResult :=
  let start : Int := t0
  let stepped := next c
  let c1 := stepped.1
  let err := stepped.2
  let now1 : Int := t0 + (dNext : Int)
  let latency : Int := now1 - start
  let logData := loggerLogData sprintSource c1 latency err
  let now2 : Int := now1 + (dBuild : Int)
  let postErr := postResult l.tag logData
  let now3 : Int := now2 + (dPost : Int)
  let printed : List String :=
    match postErr with
    | some pe => [sprintSource pe]
    | none => []
  { ctx := c1, err := err, posts := [(l.tag, logData)],
    printed := printed, doneAt := now3 }

/-- The logData map built by Logger.PanicLogger (lines 112-127): four fixed
attributes, then an error entry when err is non-nil, then a stacktrace
entry when err is non-nil (debugStack models debug.Stack()). -/
def panicLogData (sprintSource : String → String) (debugStack : String)
    (c1 : Ctx) (err : Option String) : Record :=
  let logData0 : Record :=
    [("method", Value.str c1.method),
     ("path", Value.str c1.path),
     ("client_ip", Value.str c1.ip),
     ("user_agent", Value.str c1.userAgent)]
  let logData1 : Record :=
    match err with
    | some e => logData0 ++ [("error", Value.str (sprintSource e))]
    | none => logData0
  match err with
  | some _ => logData1 ++ [("stacktrace", Value.str debugStack)]
  | none => logData1

/-- Result of one run of the PanicLogger-wrapped handler (no clock use in
that code path). -/
structure PanicResult where
  ctx : Ctx
  err : Option String
  posts : List (String × Record)
  printed : List String
deriving DecidableEq, Repr

/-- Logger.PanicLogger from the source (lines 105-137): run the downstream
handler, and only when the resulting status code equals
fiber.StatusInternalServerError build the failure record and Post it
under tag ++ ".panic", printing a Post failure locally; in every case
return the downstream error unchanged. -/
def Logger.PanicLogger (l : fiberfluentdlogger.Logger) (postResult : String → Record → Option String)
    (sprintSource : String → String) (debugStack : String)
    (next : Ctx → Ctx × Option String) (c : Ctx) : PanicResult :=
  let stepped := next c
  let c1 := stepped.1
  let err := stepped.2
  if c1.statusCode = StatusInternalServerError then
    let logData := panicLogData sprintSource debugStack c1 err
    let postErr := postResult (l.tag ++ ".panic") logData
    let printed : List String :=
      match postErr with
      | some pe => [sprintSource pe]
      | none => []
    { ctx := c1, err := err, posts := [(l.tag ++ ".panic", logData)],
      printed := printed }
  else
    { ctx := c1, err := err, posts := [], printed := [] }

/-- The record Logger.Logger sends (the second component of its single
post). -/
def loggerSentRecord (l : fiberfluentdlogger.Logger) (postResult : String → Record → Option String)
    (sprintSource : String → String) (next : Ctx → Ctx × Option String)
    (t0 : Int) (dNext dBuild dPost : Nat) (c : Ctx) : Record :=
  ((Logger.Logger l postResult sprintSource next t0 dNext dBuild dPost c).posts.headI).2

/-- The record Logger.PanicLogger sends on the error-status path (the
second component of its first post). -/
def panicSentRecord (l : fiberfluentdlogger.Logger) (postResult : String → Record → Option String)
    (sprintSource : String → String) (debugStack : String)
    (next : Ctx → Ctx × Option String) (c : Ctx) : Record :=
  ((Logger.PanicLogger l postResult sprintSource debugStack next c).posts.headI).2

/-- Concrete fluent client fixture for evaluating the middleware. -/
def wFluent : Fluent := { host := "localhost", port := 24224 }

/-- Concrete logger fixture with base tag "app". -/
def wLogger : fiberfluentdlogger.Logger := { client := wFluent, tag := "app" }

/-- Concrete request context fixture. -/
def wCtx : Ctx :=
  { method := "GET", path := "/health", statusCode := 200, ip := "10.0.0.5",
    userAgent := "curl", respBody := [72, 105] }

/-- Downstream handler fixture: sets status 500 and returns an error. -/
def wNext500err : Ctx → Ctx × Option String :=
  fun c => ({ c with statusCode := 500 }, some "db timeout")

/-- Downstream handler fixture: sets status 500 and returns nil error. -/
def wNext500ok : Ctx → Ctx × Option String :=
  fun c => ({ c with statusCode := 500 }, none)

/-- Transport fixture whose Post always fails. -/
def wPostFail : String → Record → Option String := fun _ _ => some "broken pipe"

/-- Transport fixture whose Post always succeeds. -/
def wPostOk : String → Record → Option String := fun _ _ => none

/-- Fixture for tracerr.SprintSource: the identity description. -/
def wSprint : String → String := fun s => s

/-- Helper: one run of the Logger.Logger handler in normal form. -/
lemma Logger.Logger_run (l : fiberfluentdlogger.Logger)
    (postResult : String → Record → Option String) (sprintSource : String → String)
    (next : Ctx → Ctx × Option String) (t0 : Int) (dNext dBuild dPost : Nat) (c : Ctx) :
    Logger.Logger l postResult sprintSource next t0 dNext dBuild dPost c =
      { ctx := (next c).1, err := (next c).2,
        posts := [(l.tag,
          loggerLogData sprintSource (next c).1 ((t0 + (dNext : Int)) - t0) (next c).2)],
        printed :=
          match postResult l.tag
              (loggerLogData sprintSource (next c).1 ((t0 + (dNext : Int)) - t0) (next c).2) with
          | some pe => [sprintSource pe]
          | none => [],
        doneAt := t0 + (dNext : Int) + (dBuild : Int) + (dPost : Int) } := rfl

/-- Helper: one run of the Logger.PanicLogger handler in normal form. -/
lemma Logger.PanicLogger_run (l : fiberfluentdlogger.Logger)
    (postResult : String → Record → Option String) (sprintSource : String → String)
    (debugStack : String) (next : Ctx → Ctx × Option String) (c : Ctx) :
    Logger.PanicLogger l postResult sprintSource debugStack next c =
      if (next c).1.statusCode = StatusInternalServerError then
        { ctx := (next c).1, err := (next c).2,
          posts := [(l.tag ++ ".panic",
            panicLogData sprintSource debugStack (next c).1 (next c).2)],
          printed :=
            match postResult (l.tag ++ ".panic")
                (panicLogData sprintSource debugStack (next c).1 (next c).2) with
            | some pe => [sprintSource pe]
            | none => [] }
      else { ctx := (next c).1, err := (next c).2, posts := [], printed := [] } := rfl

/-- C1: both wrapping operations return the downstream handler outcome
unchanged: the error value handed back to the caller is exactly the
downstream error, and the context (the response state) is exactly the one
the downstream handler produced, for Logger.Logger and Logger.PanicLogger
alike; the logging code modifies no response field. -/
theorem c1_wrappers_preserve_outcome (l : fiberfluentdlogger.Logger)
    (postResult : String → Record → Option String) (sprintSource : String → String)
    (debugStack : String) (next : Ctx → Ctx × Option String)
    (t0 : Int) (dNext dBuild dPost : Nat) (c : Ctx) :
    (Logger.Logger l postResult sprintSource next t0 dNext dBuild dPost c).err = (next c).2 ∧
    (Logger.Logger l postResult sprintSource next t0 dNext dBuild dPost c).ctx = (next c).1 ∧
    (Logger.PanicLogger l postResult sprintSource debugStack next c).err = (next c).2 ∧
    (Logger.PanicLogger l postResult sprintSource debugStack next c).ctx = (next c).1 := by
  refine ⟨rfl, rfl, ?_, ?_⟩ <;>
    · rw [Logger.PanicLogger_run]
      split <;> rfl

/-- C2: the handler returned by PanicLogger sends exactly one record, under
the tag formed by appending ".panic" to the configured tag, when the
resulting status code is the server-error sentinel
(fiber.StatusInternalServerError), and zero records for any other status
code. -/
theorem c2_panicLogger_post_count (l : fiberfluentdlogger.Logger)
    (postResult : String → Record → Option String) (sprintSource : String → String)
    (debugStack : String) (next : Ctx → Ctx × Option String) (c : Ctx) :
    ((Logger.PanicLogger l postResult sprintSource debugStack next c).posts).map Prod.fst =
      (if (next c).1.statusCode = StatusInternalServerError then [l.tag ++ ".panic"] else []) := by
  rw [Logger.PanicLogger_run]
  by_cases h : (next c).1.statusCode = StatusInternalServerError <;> simp [h]

/-- C3: the handler returned by Logger.Logger sends exactly one record
under the configured base tag on every request, whatever the downstream
outcome (the posts list has exactly one element tagged l.tag, for every
downstream handler and context). -/
theorem c3_logger_posts_one_record (l : fiberfluentdlogger.Logger)
    (postResult : String → Record → Option String) (sprintSource : String → String)
    (next : Ctx → Ctx × Option String) (t0 : Int) (dNext dBuild dPost : Nat) (c : Ctx) :
    ((Logger.Logger l postResult sprintSource next t0 dNext dBuild dPost c).posts).map Prod.fst =
      [l.tag] := rfl

/-- C4: the record sent by Logger.Logger has exactly the keys method, path,
status, latency_ms, client_ip, user_agent and response_size, plus an error
key exactly when the downstream handler returned a non-nil error; the
values are taken from the completed response and the error value is the
tracerr description of the downstream error. -/
theorem c4_logger_record_fields (l : fiberfluentdlogger.Logger)
    (postResult : String → Record → Option String) (sprintSource : String → String)
    (next : Ctx → Ctx × Option String) (t0 : Int) (dNext dBuild dPost : Nat) (c : Ctx) :
    (loggerSentRecord l postResult sprintSource next t0 dNext dBuild dPost c).map Prod.fst =
      ["method", "path", "status", "latency_ms", "client_ip", "user_agent", "response_size"]
        ++ (if ((next c).2).isSome then ["error"] else []) ∧
    (loggerSentRecord l postResult sprintSource next t0 dNext dBuild dPost c).lookup "method" =
      some (Value.str (next c).1.method) ∧
    (loggerSentRecord l postResult sprintSource next t0 dNext dBuild dPost c).lookup "path" =
      some (Value.str (next c).1.path) ∧
    (loggerSentRecord l postResult sprintSource next t0 dNext dBuild dPost c).lookup "status" =
      some (Value.int ((next c).1.statusCode : Int)) ∧
    (loggerSentRecord l postResult sprintSource next t0 dNext dBuild dPost c).lookup "client_ip" =
      some (Value.str (next c).1.ip) ∧
    (loggerSentRecord l postResult sprintSource next t0 dNext dBuild dPost c).lookup "user_agent" =
      some (Value.str (next c).1.userAgent) ∧
    (loggerSentRecord l postResult sprintSource next t0 dNext dBuild dPost c).lookup "response_size" =
      some (Value.int ((next c).1.respBody.length : Int)) ∧
    (loggerSentRecord l postResult sprintSource next t0 dNext dBuild dPost c).lookup "error" =
      ((next c).2).map (fun e => Value.str (sprintSource e)) := by
  have hrec : loggerSentRecord l postResult sprintSource next t0 dNext dBuild dPost c =
      loggerLogData sprintSource (next c).1 ((t0 + (dNext : Int)) - t0) (next c).2 := by
    simp [loggerSentRecord, Logger.Logger_run]
  rcases he : (next c).2 with _ | e <;>
    simp_all [loggerLogData, List.lookup]

/-- C5: constructing a logger from a configuration with Enabled = false
returns the configuration error "middleware disabled", produces no logger
handle, and performs no connection attempt, whatever fluent.New would have
done. -/
theorem c5_new_disabled (fluentNew : String → Int → Except String Fluent)
    (host : String) (port : Int) (tg : String) :
    New fluentNew { Enabled := false, Host := host, Port := port, Tag := tg } =
      (Except.error "middleware disabled", []) := rfl

/-- C6: when every Post call fails, both wrapped handlers still return the
downstream error unchanged; the transmission failure is only printed
locally (it appears in the printed list, for PanicLogger only on the
error-status path where a Post happens at all). -/
theorem c6_post_failure_swallowed (l : fiberfluentdlogger.Logger)
    (postResult : String → Record → Option String) (sprintSource : String → String)
    (debugStack : String) (next : Ctx → Ctx × Option String)
    (t0 : Int) (dNext dBuild dPost : Nat) (c : Ctx) (e : String)
    (hfail : ∀ tg rcd, postResult tg rcd = some e) :
    (Logger.Logger l postResult sprintSource next t0 dNext dBuild dPost c).err = (next c).2 ∧
    (Logger.Logger l postResult sprintSource next t0 dNext dBuild dPost c).printed =
      [sprintSource e] ∧
    (Logger.PanicLogger l postResult sprintSource debugStack next c).err = (next c).2 ∧
    (Logger.PanicLogger l postResult sprintSource debugStack next c).printed =
      (if (next c).1.statusCode = StatusInternalServerError then [sprintSource e] else []) := by
  refine ⟨rfl, ?_, ?_, ?_⟩
  · simp [Logger.Logger_run, hfail]
  · rw [Logger.PanicLogger_run]
    split <;> rfl
  · rw [Logger.PanicLogger_run]
    by_cases h : (next c).1.statusCode = StatusInternalServerError <;> simp [h, hfail]

/-- C7: on the error-status path of PanicLogger, the sent record has a
stacktrace key exactly when the downstream error is non-nil, and an error
key under exactly the same condition. -/
theorem c7_panic_stacktrace_iff_error (l : fiberfluentdlogger.Logger)
    (postResult : String → Record → Option String) (sprintSource : String → String)
    (debugStack : String) (next : Ctx → Ctx × Option String) (c : Ctx)
    (h : (next c).1.statusCode = StatusInternalServerError) :
    ((panicSentRecord l postResult sprintSource debugStack next c).lookup "stacktrace").isSome =
      ((next c).2).isSome ∧
    ((panicSentRecord l postResult sprintSource debugStack next c).lookup "error").isSome =
      ((next c).2).isSome := by
  have hrec : panicSentRecord l postResult sprintSource debugStack next c =
      panicLogData sprintSource debugStack (next c).1 (next c).2 := by
    simp [panicSentRecord, Logger.PanicLogger_run, h]
  rcases he : (next c).2 with _ | e <;>
    simp_all [panicLogData, List.lookup]

/-- C8: the latency_ms value in the record sent by Logger.Logger equals the
elapsed wall-clock time between the start capture (clock value t0, taken
before the downstream call) and the end capture (clock value t0 + dNext,
taken right after it), converted to milliseconds, and that value is
nonnegative. -/
theorem c8_latency_elapsed_nonneg (l : fiberfluentdlogger.Logger)
    (postResult : String → Record → Option String) (sprintSource : String → String)
    (next : Ctx → Ctx × Option String) (t0 : Int) (dNext dBuild dPost : Nat) (c : Ctx) :
    (loggerSentRecord l postResult sprintSource next t0 dNext dBuild dPost c).lookup
        "latency_ms" =
      some (Value.int (Duration.Milliseconds ((t0 + (dNext : Int)) - t0))) ∧
    0 ≤ Duration.Milliseconds ((t0 + (dNext : Int)) - t0) := by
  constructor
  · have hrec : loggerSentRecord l postResult sprintSource next t0 dNext dBuild dPost c =
        loggerLogData sprintSource (next c).1 ((t0 + (dNext : Int)) - t0) (next c).2 := by
      simp [loggerSentRecord, Logger.Logger_run]
    rcases he : (next c).2 with _ | e <;> simp_all [loggerLogData, List.lookup]
  · have helapsed : (t0 + (dNext : Int)) - t0 = (dNext : Int) := by ring
    have hfloor : Duration.Milliseconds (dNext : Int) = Int.ofNat (dNext / 1000000) := rfl
    rw [helapsed, hfloor]
    exact Int.ofNat_nonneg _

/-- C9: when the status code is the server-error sentinel but the
downstream error is nil, PanicLogger still sends exactly one record under
tag ++ ".panic", and that record has exactly the keys method, path,
client_ip and user_agent, with no error key and no stacktrace key. -/
theorem c9_panic_record_nil_error (l : fiberfluentdlogger.Logger)
    (postResult : String → Record → Option String) (sprintSource : String → String)
    (debugStack : String) (next : Ctx → Ctx × Option String) (c : Ctx)
    (h : (next c).1.statusCode = StatusInternalServerError)
    (hnil : (next c).2 = none) :
    (Logger.PanicLogger l postResult sprintSource debugStack next c).posts =
      [(l.tag ++ ".panic",
        [("method", Value.str (next c).1.method),
         ("path", Value.str (next c).1.path),
         ("client_ip", Value.str (next c).1.ip),
         ("user_agent", Value.str (next c).1.userAgent)])] ∧
    (panicSentRecord l postResult sprintSource debugStack next c).lookup "error" = none ∧
    (panicSentRecord l postResult sprintSource debugStack next c).lookup "stacktrace" = none := by
  have hrec : panicSentRecord l postResult sprintSource debugStack next c =
      panicLogData sprintSource debugStack (next c).1 (next c).2 := by
    simp [panicSentRecord, Logger.PanicLogger_run, h]
  refine ⟨?_, ?_, ?_⟩ <;>
    simp_all [Logger.PanicLogger_run, panicLogData, List.lookup]

/-- C10: the latency measurement window covers only the downstream call:
the latency_ms value equals the downstream duration dNext in milliseconds
and is invariant under changing the record-construction and transmission
durations (dBuild, dPost), so it never includes them. -/
theorem c10_latency_excludes_build_post (l : fiberfluentdlogger.Logger)
    (postResult : String → Record → Option String) (sprintSource : String → String)
    (next : Ctx → Ctx × Option String) (t0 : Int)
    (dNext dBuild dPost dBuild2 dPost2 : Nat) (c : Ctx) :
    (loggerSentRecord l postResult sprintSource next t0 dNext dBuild dPost c).lookup
        "latency_ms" =
      some (Value.int (Duration.Milliseconds (dNext : Int))) ∧
    (loggerSentRecord l postResult sprintSource next t0 dNext dBuild dPost c).lookup
        "latency_ms" =
      (loggerSentRecord l postResult sprintSource next t0 dNext dBuild2 dPost2 c).lookup
        "latency_ms" := by
  have helapsed : (t0 + (dNext : Int)) - t0 = (dNext : Int) := by ring
  have key : ∀ dB dP : Nat,
      (loggerSentRecord l postResult sprintSource next t0 dNext dB dP c).lookup
          "latency_ms" =
        some (Value.int (Duration.Milliseconds (dNext : Int))) := by
    intro dB dP
    have hrec : loggerSentRecord l postResult sprintSource next t0 dNext dB dP c =
        loggerLogData sprintSource (next c).1 ((t0 + (dNext : Int)) - t0) (next c).2 := by
      simp [loggerSentRecord, Logger.Logger_run]
    rcases he : (next c).2 with _ | e <;> simp_all [loggerLogData, List.lookup]
  exact ⟨key dBuild dPost, (key dBuild dPost).trans (key dBuild2 dPost2).symm⟩

/-- Witness for C6: a concrete run with an always-failing transport. -/
theorem c6_post_failure_swallowed_witness :
    (∀ tg rcd, wPostFail tg rcd = some "broken pipe") ∧
    ((Logger.Logger wLogger wPostFail wSprint wNext500err 0 5000000 1 1 wCtx).err =
        (wNext500err wCtx).2 ∧
      (Logger.Logger wLogger wPostFail wSprint wNext500err 0 5000000 1 1 wCtx).printed =
        [wSprint "broken pipe"] ∧
      (Logger.PanicLogger wLogger wPostFail wSprint "trace" wNext500err wCtx).err =
        (wNext500err wCtx).2 ∧
      (Logger.PanicLogger wLogger wPostFail wSprint "trace" wNext500err wCtx).printed =
        (if (wNext500err wCtx).1.statusCode = StatusInternalServerError
         then [wSprint "broken pipe"] else [])) :=
  ⟨fun _ _ => rfl,
   c6_post_failure_swallowed wLogger wPostFail wSprint "trace" wNext500err 0 5000000 1 1
     wCtx "broken pipe" (fun _ _ => rfl)⟩

/-- Witness for C7: a concrete 500-status run with a non-nil downstream
error. -/
theorem c7_panic_stacktrace_iff_error_witness :
    ((wNext500err wCtx).1.statusCode = StatusInternalServerError) ∧
    (((panicSentRecord wLogger wPostOk wSprint "trace" wNext500err wCtx).lookup
          "stacktrace").isSome = ((wNext500err wCtx).2).isSome ∧
      ((panicSentRecord wLogger wPostOk wSprint "trace" wNext500err wCtx).lookup
          "error").isSome = ((wNext500err wCtx).2).isSome) :=
  ⟨rfl, c7_panic_stacktrace_iff_error wLogger wPostOk wSprint "trace" wNext500err wCtx rfl⟩

/-- Witness for C9: a concrete 500-status run with a nil downstream
error. -/
theorem c9_panic_record_nil_error_witness :
    ((wNext500ok wCtx).1.statusCode = StatusInternalServerError) ∧
    ((wNext500ok wCtx).2 = none) ∧
    ((Logger.PanicLogger wLogger wPostOk wSprint "trace" wNext500ok wCtx).posts =
        [("app" ++ ".panic",
          [("method", Value.str "GET"),
           ("path", Value.str "/health"),
           ("client_ip", Value.str "10.0.0.5"),
           ("user_agent", Value.str "curl")])] ∧
      (panicSentRecord wLogger wPostOk wSprint "trace" wNext500ok wCtx).lookup "error" =
        none ∧
      (panicSentRecord wLogger wPostOk wSprint "trace" wNext500ok wCtx).lookup "stacktrace" =
        none) :=
  ⟨rfl, rfl,
   c9_panic_record_nil_error wLogger wPostOk wSprint "trace" wNext500ok wCtx rfl rfl⟩

end fiberfluentdlogger
